import Mathlib

/-!
Verification of the availability-checker library (src/lib.rs) of
cargo-free. The library exposes two entry points, check_availability and
check_availability_with_timeout, which validate a crate name, build a
crates.io lookup URL, issue a single GET request through the ureq HTTP
client, and classify the observed HTTP status code into a three-valued
Availability result.

The network is modelled as an oracle mapping each issued request to an
outcome. Each call is embedded as a pure function that also returns the
list of GET requests it issued and the lines it printed to the error
stream, so that the claims about performing no network access and about
diagnostics are statable.
-/

namespace CargoFree

/-- The availability status of a crate name (src/lib.rs, enum Availability). -/
inductive Availability
  /-- The crate name is available. -/
  | Available
  /-- The crate name is unavailable. -/
  | Unavailable
  /-- The crate name cannot be resolved. -/
  | Unknown
deriving DecidableEq, Repr

/-- Default timeout in seconds (src/lib.rs line 5, const TIMEOUT: u64 = 5). -/
def TIMEOUT : Nat := 5

/-- A std::time::Duration, modelled as a number of milliseconds. -/
abbrev Duration := Nat

/-- Duration::from_secs, in the milliseconds model. -/
def Duration.from_secs (s : Nat) : Duration := s * 1000

/-- A GET request as configured by ureq::get(url).timeout(timeout)
(src/lib.rs line 76). -/
structure Request where
  url : String
  timeout : Duration
deriving DecidableEq, Repr

/-- Modelled from the spec: the outcome of dispatching a request through the
ureq HTTP client, whose code is a dependency and not part of this repository.
Either the server yields a clean HTTP response carrying a status code, or the
attempt ends in timeout expiry or a transport-level failure (DNS failure,
connection refused, TLS failure), which ureq folds into a synthetic error
response that also carries a status code; per the spec such synthetic status
codes are never 200 or 404, so they classify as Unknown. -/
inductive CallOutcome
  /-- A clean HTTP response with the given status code. -/
  | response (status : Nat)
  /-- Timeout expiry or transport-level failure, folded into a synthetic
  response with the given status code (never 200 or 404). -/
  | transportError (syntheticStatus : Nat)
deriving DecidableEq, Repr

/-- The status code resp.status() observed by the caller of call(). -/
def CallOutcome.observedStatus : CallOutcome → Nat
  | .response s => s
  | .transportError s => s

/-- A network environment: the outcome the network yields for each request. -/
abbrev Network := Request → CallOutcome

/-- Everything one call produces: the returned Result value, the list of GET
requests it issued, and the lines it printed to the error stream. -/
structure CheckOutput where
  result : Except Unit Availability
  requests : List Request
  stderr : List String
deriving Repr

/-- The lookup URL built by interpolating the name verbatim into the fixed
template (src/lib.rs line 75). -/
def crateUrl (name : String) : String :=
  "https://crates.io/api/v1/crates/" ++ name

/-- The status-code classification (src/lib.rs lines 77 to 81). -/
def statusToAvailability (status : Nat) : Availability :=
  match status with
  | 200 => Availability.Unavailable
  | 404 => Availability.Available
  | _ => Availability.Unknown

/-- check_availability_with_timeout (src/lib.rs lines 65 to 83),
parameterised by the network environment. -/
def check_availability_with_timeout (net : Network) (name : String)
    (timeout : Duration) : CheckOutput :=
  if name.isEmpty then
    { result := Except.error ()
      requests := []
      stderr := ["Crate name can\x27t be empty"] }
  else
    let url := crateUrl name
    let req : Request := { url := url, timeout := timeout }
    let resp := net req
    let availability := statusToAvailability resp.observedStatus
    { result := Except.ok availability
      requests := [req]
      stderr := [] }

/-- check_availability (src/lib.rs lines 51 to 53): the default-timeout
entry point. -/
def check_availability (net : Network) (name : String) : CheckOutput :=
  check_availability_with_timeout net name (Duration.from_secs TIMEOUT)

theorem statusToAvailability_eq_ite (s : Nat) :
    statusToAvailability s =
      if s = 200 then Availability.Unavailable
      else if s = 404 then Availability.Available
      else Availability.Unknown := by
  unfold statusToAvailability
  split <;> simp_all

/-- C1: for every call of check_availability_with_timeout with a non-empty
name whose HTTP request yields a response, the returned value is determined
solely by the status code: 200 yields Ok Unavailable, 404 yields
Ok Available, and any other status yields Ok Unknown. -/
theorem C1_status_classification (net : Network) (name : String)
    (t : Duration) (s : Nat)
    (hname : name.isEmpty = false)
    (hresp : net { url := crateUrl name, timeout := t } = CallOutcome.response s) :
    (check_availability_with_timeout net name t).result =
      Except.ok (if s = 200 then Availability.Unavailable
        else if s = 404 then Availability.Available
        else Availability.Unknown) := by
  simp [check_availability_with_timeout, hname, hresp,
    CallOutcome.observedStatus, statusToAvailability_eq_ite]

/-- Witness for C1 at name serde, status 200. -/
theorem C1_status_classification_witness :
    (check_availability_with_timeout (fun _ => CallOutcome.response 200)
      "serde" 5000).result = Except.ok Availability.Unavailable :=
  C1_status_classification (fun _ => CallOutcome.response 200) "serde" 5000 200
    rfl rfl

/-- C2: for every empty name, both entry points return a failure result and
issue no network request. -/
theorem C2_empty_name_no_request (net : Network) (name : String)
    (t : Duration) (h : name.isEmpty = true) :
    (check_availability_with_timeout net name t).result = Except.error () ∧
    (check_availability_with_timeout net name t).requests = [] ∧
    (check_availability net name).result = Except.error () ∧
    (check_availability net name).requests = [] := by
  simp [check_availability, check_availability_with_timeout, h]

/-- Witness for C2 at the empty name. -/
theorem C2_empty_name_no_request_witness :
    (check_availability_with_timeout (fun _ => CallOutcome.response 200)
      "" 5000).result = Except.error () ∧
    (check_availability_with_timeout (fun _ => CallOutcome.response 200)
      "" 5000).requests = [] ∧
    (check_availability (fun _ => CallOutcome.response 200) "").result =
      Except.error () ∧
    (check_availability (fun _ => CallOutcome.response 200) "").requests = [] :=
  C2_empty_name_no_request (fun _ => CallOutcome.response 200) "" 5000 rfl

/-- C3: check_availability_with_timeout fails exactly when the name is
empty; for every non-empty name the result is Ok of some Availability, no
matter what the network yields. -/
theorem C3_error_iff_empty (net : Network) (name : String) (t : Duration) :
    ((∃ e, (check_availability_with_timeout net name t).result =
        Except.error e) ↔ name.isEmpty = true) ∧
    (name.isEmpty = true ∨
      ∃ a, (check_availability_with_timeout net name t).result =
        Except.ok a) := by
  by_cases h : name.isEmpty <;>
    simp [check_availability_with_timeout, h]

/-- C4: for every non-empty name, when the request ends in timeout expiry or
a transport-level failure (whose synthetic status, per the spec model of the
HTTP client, is neither 200 nor 404), the call does not return an error: it
returns Ok Unknown. -/
theorem C4_transport_failure_unknown (net : Network) (name : String)
    (t : Duration) (s : Nat)
    (hname : name.isEmpty = false)
    (hfail : net { url := crateUrl name, timeout := t } =
      CallOutcome.transportError s)
    (h200 : s ≠ 200) (h404 : s ≠ 404) :
    (check_availability_with_timeout net name t).result =
      Except.ok Availability.Unknown := by
  simp [check_availability_with_timeout, hname, hfail,
    CallOutcome.observedStatus, statusToAvailability_eq_ite, h200, h404]

/-- Witness for C4 at name serde with a synthetic status of 500. -/
theorem C4_transport_failure_unknown_witness :
    (check_availability_with_timeout (fun _ => CallOutcome.transportError 500)
      "serde" 1).result = Except.ok Availability.Unknown :=
  C4_transport_failure_unknown (fun _ => CallOutcome.transportError 500)
    "serde" 1 500 rfl rfl (by decide) (by decide)

/-- C5: check_availability is definitionally check_availability_with_timeout
applied at a five-second timeout, for every name and network environment. -/
theorem C5_default_timeout (net : Network) (name : String) :
    check_availability net name =
      check_availability_with_timeout net name (Duration.from_secs 5) := rfl

/-- C6: for every non-empty name, the single issued request targets the URL
obtained by appending the name verbatim to the fixed template, with no
escaping of any character; the witness uses a name containing a slash and a
question mark. -/
theorem C6_url_verbatim (net : Network) (name : String) (t : Duration)
    (h : name.isEmpty = false) :
    (check_availability_with_timeout net name t).requests =
      [{ url := "https://crates.io/api/v1/crates/" ++ name, timeout := t }] := by
  simp [check_availability_with_timeout, h, crateUrl]

/-- Witness for C6 at a name containing a slash and a question mark. -/
theorem C6_url_verbatim_witness :
    (check_availability_with_timeout (fun _ => CallOutcome.response 200)
      "a/b?c" 5000).requests =
      [{ url := "https://crates.io/api/v1/crates/a/b?c", timeout := 5000 }] :=
  C6_url_verbatim (fun _ => CallOutcome.response 200) "a/b?c" 5000 rfl

/-- C7: the classification is deterministic: two calls with the same name
and timeout whose issued request observes the same status code produce equal
outputs; there is no hidden state between calls. -/
theorem C7_deterministic (net1 net2 : Network) (name : String) (t : Duration)
    (h : (net1 { url := crateUrl name, timeout := t }).observedStatus =
      (net2 { url := crateUrl name, timeout := t }).observedStatus) :
    check_availability_with_timeout net1 name t =
      check_availability_with_timeout net2 name t := by
  by_cases hname : name.isEmpty <;>
    simp [check_availability_with_timeout, hname, h]

/-- Witness for C7 with two environments observing status 404. -/
theorem C7_deterministic_witness :
    check_availability_with_timeout (fun _ => CallOutcome.response 404)
        "serde" 5000 =
      check_availability_with_timeout (fun _ => CallOutcome.transportError 404)
        "serde" 5000 :=
  C7_deterministic (fun _ => CallOutcome.response 404)
    (fun _ => CallOutcome.transportError 404) "serde" 5000 rfl

/-- C8: a call with a non-empty name issues exactly one GET request and a
call with an empty name issues zero; there is never a second request. -/
theorem C8_single_request (net : Network) (name : String) (t : Duration) :
    (check_availability_with_timeout net name t).requests.length =
      if name.isEmpty then 0 else 1 := by
  by_cases h : name.isEmpty <;>
    simp [check_availability_with_timeout, h]

/-- C10: whenever either entry point fails, the error value is the unit
value, carrying no information about the cause, and the diagnostic text goes
to the error stream. -/
theorem C10_unit_error (net : Network) (name : String) (t : Duration)
    (e e2 : Unit)
    (h : (check_availability_with_timeout net name t).result = Except.error e)
    (h2 : (check_availability net name).result = Except.error e2) :
    e = () ∧ e2 = () ∧
    (check_availability_with_timeout net name t).stderr =
      ["Crate name can\x27t be empty"] ∧
    (check_availability net name).stderr =
      ["Crate name can\x27t be empty"] := by
  by_cases hname : name.isEmpty
  · exact ⟨rfl, rfl, by simp [check_availability_with_timeout, hname],
      by simp [check_availability, check_availability_with_timeout, hname]⟩
  · exfalso
    simp [check_availability_with_timeout, hname] at h

/-- Witness for C10 at the empty name. -/
theorem C10_unit_error_witness :
    () = () ∧ () = () ∧
    (check_availability_with_timeout (fun _ => CallOutcome.response 200)
      "" 5000).stderr = ["Crate name can\x27t be empty"] ∧
    (check_availability (fun _ => CallOutcome.response 200) "").stderr =
      ["Crate name can\x27t be empty"] :=
  C10_unit_error (fun _ => CallOutcome.response 200) "" 5000 () () rfl rfl

end CargoFree
